import Mathlib

/-!
Shallow embedding of the n8n TypeScript SDK HTTP core
(src/client.ts, src/errors.ts, src/resources/executions.ts,
src/types/common.ts), together with proofs of the specification
claims about URL building, request lifecycle, and error
classification.

JavaScript values that flow through the client as `unknown` are
modelled by the inductive `JsValue`; machine numbers appearing in
the relevant code paths (HTTP status codes, timeouts, integer query
values) are modelled as Nat or Int, since no arithmetic overflow is
involved. Asynchronous effects (the fetch call, the timer and the
abort controller) are modelled by passing the observable outcome of
the single fetch round trip, plus the observed state of the external
cancellation handle at the moment an abort is handled, explicitly as
a `FetchEnv` value: the request function is then a pure function of
client state, request options, and that environment, mirroring the
control flow of `HttpClient.request` branch by branch.
-/

namespace N8nSdk

/-- Model of a JavaScript value as it appears in the client code as
the `unknown` type: response bodies, request bodies. `undef` models
the JavaScript undefined value, `nan` models the NaN number. Numbers
are otherwise modelled as integers; the claims under study only use
integer numbers. -/
inductive JsValue where
  | undef : JsValue
  | null : JsValue
  | bool (b : Bool) : JsValue
  | num (n : Int) : JsValue
  | nan : JsValue
  | str (s : String) : JsValue
  | obj (fields : List (String × JsValue)) : JsValue
  | arr (elems : List JsValue) : JsValue

/-- JavaScript truthiness: undefined, null, false, 0, NaN and the
empty string are falsy; every object and array is truthy. This is
the semantics of the condition in the expression
`body ? JSON.stringify(body) : undefined` in HttpClient.request. -/
def JsValue.truthy : JsValue → Bool
  | JsValue.undef => false
  | JsValue.null => false
  | JsValue.bool b => b
  | JsValue.num n => n != 0
  | JsValue.nan => false
  | JsValue.str s => s != ""
  | JsValue.obj _ => true
  | JsValue.arr _ => true

/-- Model of the JavaScript `typeof x === "object"` test: true for
objects, arrays and null. -/
def JsValue.typeofIsObject : JsValue → Bool
  | JsValue.obj _ => true
  | JsValue.arr _ => true
  | JsValue.null => true
  | _ => false

/-- Model of the JavaScript null test used in
HttpClient.extractErrorMessage (`body !== null`). -/
def JsValue.isNull : JsValue → Bool
  | JsValue.null => true
  | _ => false

/-- Model of JavaScript property read `obj[k]`: on an object, the
value of the last binding of the key (matching the last-write-wins
semantics of JavaScript objects); undefined when the key is absent
or the value is not an object (arrays have no string-keyed own
properties of interest here). -/
def JsValue.getField : JsValue → String → JsValue
  | JsValue.obj fields, k =>
      match fields.reverse.find? (fun kv => kv.1 == k) with
      | some kv => kv.2
      | none => JsValue.undef
  | _, _ => JsValue.undef

/-- String quoting used by the model of JSON.stringify. Escaping of
special characters inside the string is elided: no claim under study
depends on the serialized text, only on whether serialization
happens at all. -/
def jsonQuote (s : String) : String := "\"" ++ s ++ "\""

mutual

/-- Model of JSON.stringify restricted to the values of `JsValue`.
NaN serializes as null, as in JavaScript. The undef case is
unreachable from HttpClient.request, because undefined is falsy and
only truthy bodies are serialized there. -/
def JsValue.stringify : JsValue → String
  | JsValue.undef => ""
  | JsValue.null => "null"
  | JsValue.nan => "null"
  | JsValue.bool b => if b then "true" else "false"
  | JsValue.num n => toString n
  | JsValue.str s => jsonQuote s
  | JsValue.obj fields =>
      "\x7b" ++ String.intercalate "," (stringifyFields fields) ++ "\x7d"
  | JsValue.arr elems =>
      "[" ++ String.intercalate "," (stringifyElems elems) ++ "]"

/-- Serialization of the fields of a JSON object, in order. -/
def stringifyFields : List (String × JsValue) → List String
  | [] => []
  | kv :: rest => (jsonQuote kv.1 ++ ":" ++ JsValue.stringify kv.2) :: stringifyFields rest

/-- Serialization of the elements of a JSON array, in order. -/
def stringifyElems : List JsValue → List String
  | [] => []
  | v :: rest => JsValue.stringify v :: stringifyElems rest

end

/-- Errors module, from src/errors.ts: the API error class
N8nApiError. It carries the message, the HTTP status, the request
method, the request path and the parsed response body. -/
structure N8nApiError where
  message : String
  status : Nat
  method : String
  path : String
  body : JsValue

/-- Client error predicate from N8nApiError.isClientError:
status at least 400 and below 500. -/
def N8nApiError.isClientError (e : N8nApiError) : Bool :=
  400 ≤ e.status && e.status < 500

/-- Server error predicate from N8nApiError.isServerError:
status at least 500. -/
def N8nApiError.isServerError (e : N8nApiError) : Bool :=
  500 ≤ e.status

/-- Not-found predicate from N8nApiError.isNotFound: status 404. -/
def N8nApiError.isNotFound (e : N8nApiError) : Bool :=
  e.status == 404

/-- Unauthorized predicate from N8nApiError.isUnauthorized:
status 401. -/
def N8nApiError.isUnauthorized (e : N8nApiError) : Bool :=
  e.status == 401

/-- Forbidden predicate from N8nApiError.isForbidden: status 403. -/
def N8nApiError.isForbidden (e : N8nApiError) : Bool :=
  e.status == 403

/-- Validation error predicate from N8nApiError.isValidationError:
status 400. -/
def N8nApiError.isValidationError (e : N8nApiError) : Bool :=
  e.status == 400

/-- Conflict predicate from N8nApiError.isConflict: status 409. -/
def N8nApiError.isConflict (e : N8nApiError) : Bool :=
  e.status == 409

/-- Configuration error, from N8nConfigError in src/errors.ts:
carries only the message. -/
structure N8nConfigError where
  message : String
deriving DecidableEq

/-- Union of everything HttpClient.request can throw: an API error,
a timeout error carrying the effective timeout in milliseconds, an
abort error, a network error wrapping the transport failure, or an
unknown exception rethrown unchanged (modelled by an opaque tag
string). -/
inductive RequestError where
  | apiError (e : N8nApiError) : RequestError
  | timeoutError (timeoutMs : Int) : RequestError
  | abortError : RequestError
  | networkError (message : String) (original : String) : RequestError
  | unknownError (tag : String) : RequestError

/-- Client configuration object, from N8nClientConfig in
src/client.ts. Optional fields are modelled with Option, whose none
value stands for an absent (undefined) property. Headers mappings
are modelled as association lists in insertion order. -/
structure N8nClientConfig where
  baseUrl : String
  apiKey : String
  timeout : Option Int := none
  headers : Option (List (String × String)) := none
  apiVersion : Option String := none

/-- Stripping of every trailing slash from a string, modelling the
expression `config.baseUrl.replace(/\/+$/, "")` in the HttpClient
constructor: the regular expression matches the maximal run of
slashes at the end of the string and the replacement deletes it. -/
def stripTrailingSlashes (s : String) : String :=
  String.mk ((s.data.reverse.dropWhile (fun c => c == '/')).reverse)

/-- State of a constructed HttpClient, from the private readonly
fields of the class in src/client.ts. -/
structure HttpClient where
  baseUrl : String
  apiKey : String
  defaultTimeout : Int
  defaultHeaders : List (String × String)
  apiVersion : String

/-- The HttpClient constructor. A thrown N8nConfigError is modelled
by the error branch of Except. The falsiness tests `!config.baseUrl`
and `!config.apiKey` hold exactly on the empty string, since both
fields are typed as strings. The constructor performs no network
activity: it is a pure function of the configuration. -/
def mkHttpClient (config : N8nClientConfig) : Except N8nConfigError HttpClient :=
  if config.baseUrl = "" then Except.error ⟨"baseUrl is required"⟩
  else if config.apiKey = "" then Except.error ⟨"apiKey is required"⟩
  else Except.ok
    { baseUrl := stripTrailingSlashes config.baseUrl
      apiKey := config.apiKey
      defaultTimeout := config.timeout.getD 30000
      defaultHeaders := config.headers.getD []
      apiVersion := config.apiVersion.getD "v1" }

/-- Value types admitted by the QueryParams mapping of src/client.ts
other than undefined: string, number or boolean. Undefined entries
are modelled by wrapping the value in Option at the entry level. -/
inductive QueryValue where
  | str (s : String) : QueryValue
  | num (n : Int) : QueryValue
  | bool (b : Bool) : QueryValue
deriving DecidableEq

/-- Model of the JavaScript conversion String(value) on query
values: a string stays itself, a boolean becomes the literal text
true or false, an integer number becomes its decimal notation. -/
def QueryValue.jsString : QueryValue → String
  | QueryValue.str s => s
  | QueryValue.num n => toString n
  | QueryValue.bool b => if b then "true" else "false"

/-- Query mapping in insertion order, as produced by Object.entries:
each entry is a key together with an optional value, none standing
for undefined. -/
abbrev QueryParams := List (String × Option QueryValue)

/-- UTF-8 encoding of one character, as the list of its byte values.
Used by the percent-encoder of URLSearchParams. -/
def utf8Bytes (c : Char) : List Nat :=
  let n := c.toNat
  if n < 128 then [n]
  else if n < 2048 then [192 + n / 64, 128 + n % 64]
  else if n < 65536 then [224 + n / 4096, 128 + (n / 64) % 64, 128 + n % 64]
  else [240 + n / 262144, 128 + (n / 4096) % 64, 128 + (n / 64) % 64, 128 + n % 64]

/-- Uppercase hexadecimal digit for a value below 16. -/
def hexDigitChar (n : Nat) : Char :=
  if n < 10 then Char.ofNat (48 + n) else Char.ofNat (55 + n)

/-- Bytes that application/x-www-form-urlencoded leaves unescaped:
digits, ASCII letters, asterisk, hyphen, period and underscore. -/
def formByteAllowed (b : Nat) : Bool :=
  (48 ≤ b && b ≤ 57) || (65 ≤ b && b ≤ 90) || (97 ≤ b && b ≤ 122) ||
  b == 42 || b == 45 || b == 46 || b == 95

/-- Percent-encoding of a component under the serialization rules of
URLSearchParams (application/x-www-form-urlencoded): allowed bytes
stay themselves, the space becomes a plus sign, every other byte of
the UTF-8 encoding becomes a percent escape. -/
def urlencode (s : String) : String :=
  String.mk (s.data.flatMap (fun c => (utf8Bytes c).flatMap (fun b =>
    if b == 32 then ['+']
    else if formByteAllowed b then [Char.ofNat b]
    else ['%', hexDigitChar (b / 16), hexDigitChar (b % 16)])))

/-- Loop body of the query loop of HttpClient.buildUrl: append the
pair to the accumulated search parameter list when the value is not
undefined, converting the value with String(value); skip the entry
otherwise. -/
def appendQueryStep (acc : List (String × String)) (kv : String × Option QueryValue) :
    List (String × String) :=
  match kv.2 with
  | some v => acc ++ [(kv.1, QueryValue.jsString v)]
  | none => acc

/-- The query loop of HttpClient.buildUrl: iterate the entries of
the mapping in insertion order, starting from the empty search
parameter list. -/
def appendQueryParams (query : QueryParams) : List (String × String) :=
  query.foldl appendQueryStep []

/-- Serialization of a search parameter list, as URL.toString does
through URLSearchParams: pairs in order, key and value each
percent-encoded, joined by equal signs and ampersands. -/
def searchParamsToString (ps : List (String × String)) : String :=
  String.intercalate "&" (ps.map (fun p => urlencode p.1 ++ "=" ++ urlencode p.2))

/-- HttpClient.buildUrl: the absolute URL text, namely the stored
base URL followed by the literal segment /api/, the version segment,
the path, and, when at least one defined query entry exists, a
question mark and the serialized search parameters. The WHATWG URL
normalization applied by the URL class is elided: it is one fixed
function of this text, applied identically on every input, so
equalities of the text transfer to equalities of the normalized
URL. -/
def HttpClient.buildUrl (c : HttpClient) (path : String) (query : Option QueryParams) : String :=
  let base := c.baseUrl ++ "/api/" ++ c.apiVersion ++ path
  let ps :=
    match query with
    | some q => appendQueryParams q
    | none => []
  if ps.isEmpty then base else base ++ "?" ++ searchParamsToString ps

/-- HTTP methods accepted by InternalRequestOptions. -/
inductive HttpMethod where
  | GET : HttpMethod
  | POST : HttpMethod
  | PUT : HttpMethod
  | DELETE : HttpMethod
  | PATCH : HttpMethod
deriving DecidableEq

/-- Text of a method, as the string union type of the source. -/
def HttpMethod.toStr : HttpMethod → String
  | HttpMethod.GET => "GET"
  | HttpMethod.POST => "POST"
  | HttpMethod.PUT => "PUT"
  | HttpMethod.DELETE => "DELETE"
  | HttpMethod.PATCH => "PATCH"

/-- Per-call options, from InternalRequestOptions in src/client.ts.
The field signal records whether an external cancellation handle was
supplied with the call; its dynamic aborted state is part of the
fetch environment, since it is observed at the moment an abort is
handled. -/
structure InternalRequestOptions where
  method : HttpMethod
  path : String
  body : Option JsValue := none
  query : Option QueryParams := none
  headers : Option (List (String × String)) := none
  timeout : Option Int := none
  signal : Bool := false

/-- Observable content of an HTTP response: the status, the value of
the content-type response header (none when the header is absent),
the value the body would parse to as JSON, and the raw body text.
The request function consumes at most one of the two body views,
selected by the content type, and neither when the status is 204. -/
structure HttpResponse where
  status : Nat
  contentType : Option String := none
  jsonBody : JsValue := JsValue.undef
  textBody : String := ""

/-- Outcome of the single fetch round trip: a response, a rejection
whose error is named AbortError (produced when the internal
controller aborts), a TypeError from the transport, or any other
exception (carried as an opaque tag and rethrown unchanged). -/
inductive FetchResult where
  | success (r : HttpResponse) : FetchResult
  | abortError : FetchResult
  | typeError (message : String) : FetchResult
  | otherError (tag : String) : FetchResult

/-- Environment of one request invocation: the fetch outcome and the
aborted state of the external cancellation handle as observed at the
moment an abort is handled (the reading of signal.aborted in the
catch block). The field is meaningful only when a handle was
supplied and an abort occurred. -/
structure FetchEnv where
  outcome : FetchResult
  signalAborted : Bool := false

/-- Substring containment on character lists: some tail of the
haystack starts with the pattern. -/
def containsSub (hay sub : List Char) : Bool :=
  hay.tails.any (fun t => sub.isPrefixOf t)

/-- Model of the JavaScript String.includes test. -/
def strIncludes (s sub : String) : Bool :=
  containsSub s.data sub.data

/-- Test applied to the content-type response header in
HttpClient.request: the optional chaining
contentType?.includes("application/json") is false when the header
is absent. -/
def ctIncludesJson : Option String → Bool
  | some ct => strIncludes ct "application/json"
  | none => false

/-- Model of the response.ok property of fetch: status in the range
200 to 299. -/
def responseOk (status : Nat) : Bool :=
  200 ≤ status && status ≤ 299

/-- HttpClient.extractErrorMessage from src/client.ts: when the body
is of object type and not null, prefer its message field and then
its error field, each only when the value is a string; otherwise,
when the body is a nonempty string, the body itself; otherwise the
fallback text naming the status. -/
def HttpClient.extractErrorMessage (body : JsValue) (status : Nat) : String :=
  let objectCase : Option String :=
    if body.typeofIsObject && !body.isNull then
      match body.getField "message" with
      | JsValue.str m => some m
      | _ =>
        match body.getField "error" with
        | JsValue.str e => some e
        | _ => none
    else none
  match objectCase with
  | some m => m
  | none =>
    match body with
    | JsValue.str s => if s.length > 0 then s else "HTTP " ++ toString status ++ " error"
    | _ => "HTTP " ++ toString status ++ " error"

/-- Effective timeout of a call: the per-call override when present,
else the client default, from the expression
`timeout ?? this.defaultTimeout`. -/
def effectiveTimeout (c : HttpClient) (options : InternalRequestOptions) : Int :=
  options.timeout.getD c.defaultTimeout

/-- Body text handed to fetch, from the expression
`body ? JSON.stringify(body) : undefined`: serialization happens
exactly when a body argument is present and truthy. -/
def sentBody : Option JsValue → Option String
  | some b => if b.truthy then some (JsValue.stringify b) else none
  | none => none

/-- Header list handed to fetch, in the order of the object literal
of the source: content type, the API key header, then the default
headers, then the per-call headers. Under the object spread
semantics a later entry overrides an earlier one with the same
key. -/
def requestHeaders (c : HttpClient) (headers : Option (List (String × String))) :
    List (String × String) :=
  [("Content-Type", "application/json"), ("X-N8N-API-KEY", c.apiKey)] ++
    c.defaultHeaders ++ headers.getD []

/-- Arguments of the single fetch call issued by
HttpClient.request. -/
structure FetchCall where
  url : String
  method : HttpMethod
  headers : List (String × String)
  body : Option String

/-- The fetch call that HttpClient.request issues for given
options. -/
def HttpClient.fetchCall (c : HttpClient) (options : InternalRequestOptions) : FetchCall :=
  { url := c.buildUrl options.path options.query
    method := options.method
    headers := requestHeaders c options.headers
    body := sentBody options.body }

/-- HttpClient.request as a pure function of the client state, the
options and the fetch environment, following the source branch by
branch. On a response: status 204 resolves to none before any body
view is consumed; otherwise the body is parsed as JSON when the
content type includes application/json and read as text otherwise;
a status outside 200 to 299 raises the API error built by
extractErrorMessage; a 2xx status resolves to the parsed body. On a
rejection named AbortError: the external handle, when supplied and
observed aborted, yields the abort error, else the timeout error
carrying the effective timeout. A TypeError becomes the network
error; any other exception is rethrown unchanged. Timer bookkeeping
(clearTimeout on both exits) has no observable effect in this
model. -/
def HttpClient.request (c : HttpClient) (options : InternalRequestOptions)
    (env : FetchEnv) : Except RequestError (Option JsValue) :=
  let timeoutMs := effectiveTimeout c options
  match env.outcome with
  | FetchResult.success r =>
      if r.status == 204 then Except.ok none
      else
        let responseBody :=
          if ctIncludesJson r.contentType then r.jsonBody else JsValue.str r.textBody
        if !responseOk r.status then
          Except.error (RequestError.apiError
            { message := HttpClient.extractErrorMessage responseBody r.status
              status := r.status
              method := options.method.toStr
              path := options.path
              body := responseBody })
        else Except.ok (some responseBody)
  | FetchResult.abortError =>
      if options.signal && env.signalAborted then Except.error RequestError.abortError
      else Except.error (RequestError.timeoutError timeoutMs)
  | FetchResult.typeError msg =>
      Except.error (RequestError.networkError ("Network error: " ++ msg) msg)
  | FetchResult.otherError tag =>
      Except.error (RequestError.unknownError tag)

/-- Keys of an object value, in order; the empty list on any other
value. -/
def JsValue.objKeys : JsValue → List String
  | JsValue.obj fields => fields.map (fun kv => kv.1)
  | _ => []

/-- Key membership test on an object value. -/
def JsValue.hasKey (v : JsValue) (k : String) : Bool :=
  (v.objKeys).any (fun key => key == k)

/-- ExecutionsResource.list from src/resources/executions.ts,
reshaping step: from the decoded response it builds the object
literal with the field data copied from the data field of the
response and the field nextCursor copied from the nextCursor field
of the response. The object literal is modelled as a JsValue object
so that its field names are part of the model. -/
def ExecutionsResource.listReshape (response : JsValue) : JsValue :=
  JsValue.obj
    [("data", response.getField "data"), ("nextCursor", response.getField "nextCursor")]

/-- Message extraction rule in the words of the specification, with
the one amendment the code forces: prefer the message field of the
body when it is a string, then the error field when it is a string,
else the raw text body when the body was parsed as plain text and is
nonempty, else the fallback text naming the status. Reading a field
of a value that is not an object yields undefined, so non-objects
fall through the first two clauses. -/
def specErrorMessage (body : JsValue) (status : Nat) : String :=
  match body.getField "message" with
  | JsValue.str m => m
  | _ =>
    match body.getField "error" with
    | JsValue.str e => e
    | _ =>
      match body with
      | JsValue.str s => if s = "" then "HTTP " ++ toString status ++ " error" else s
      | _ => "HTTP " ++ toString status ++ " error"

/-- Entries of a query mapping that carry a defined value, in
insertion order, paired with the String(value) conversion: the list
of pairs the specification says the builder appends. -/
def definedQueryEntries (query : QueryParams) : List (String × String) :=
  query.filterMap (fun kv => kv.2.map (fun v => (kv.1, QueryValue.jsString v)))

/-- Fixed client used for concrete instances: base URL https://h,
API key k, all defaulted options. -/
def clientH : HttpClient :=
  { baseUrl := "https://h"
    apiKey := "k"
    defaultTimeout := 30000
    defaultHeaders := []
    apiVersion := "v1" }

/-- The query mapping of the testable property of the specification:
foo bound to the string a, bar undefined, baz bound to the number 5,
flag bound to true. -/
def exampleQuery : QueryParams :=
  [("foo", some (QueryValue.str "a")), ("bar", none),
   ("baz", some (QueryValue.num 5)), ("flag", some (QueryValue.bool true))]

/-- Sample decoded execution list response used in concrete
instances. -/
def exampleListResponse : JsValue :=
  JsValue.obj [("data", JsValue.arr [JsValue.obj [("id", JsValue.num 7)]]),
               ("nextCursor", JsValue.str "abc")]

/-- Positivity of the length of a string is the same as the string
being nonempty. -/
theorem string_length_pos_iff (s : String) : 0 < s.length ↔ s ≠ "" := by
  constructor
  · intro h he
    subst he
    simp at h
  · intro h
    cases s with
    | mk data =>
      cases data with
      | nil => exact absurd rfl h
      | cons c cs => simp [String.length]

/-- Appending to a nonempty string keeps it nonempty. -/
theorem string_append_ne_empty (s t : String) (hs : s ≠ "") : s ++ t ≠ "" := by
  intro h
  have hlen := congrArg String.length h
  rw [String.length_append] at hlen
  have hpos : 0 < s.length := (string_length_pos_iff s).mpr hs
  have hnil : String.length "" = 0 := rfl
  rw [hnil] at hlen
  omega

/-- Dropping the slash prefix of a list that starts with a run of
slashes skips the whole run. -/
theorem dropWhile_slash_replicate (k : Nat) (xs : List Char) :
    List.dropWhile (fun c => c == '/') (List.replicate k '/' ++ xs) =
      List.dropWhile (fun c => c == '/') xs := by
  induction k with
  | zero => simp
  | succ n ih => simp [List.replicate_succ, List.dropWhile_cons, ih]

/-- Trailing slashes appended to a string do not change the result
of stripping trailing slashes. -/
theorem stripTrailingSlashes_append_slashes (s : String) (k : Nat) :
    stripTrailingSlashes (s ++ String.mk (List.replicate k '/')) = stripTrailingSlashes s := by
  unfold stripTrailingSlashes
  have hdata : (s ++ String.mk (List.replicate k '/')).data = s.data ++ List.replicate k '/' := by
    rw [String.data_append]
  rw [hdata, List.reverse_append, List.reverse_replicate, dropWhile_slash_replicate]

/-- The query loop is the filterMap of the defined entries: run from
any accumulator, it appends exactly the defined entries in insertion
order. -/
theorem foldl_appendQueryStep (q : QueryParams) (acc : List (String × String)) :
    q.foldl appendQueryStep acc = acc ++ definedQueryEntries q := by
  induction q generalizing acc with
  | nil => simp [definedQueryEntries]
  | cons kv rest ih =>
      cases h : kv.2 with
      | none =>
          simp [List.foldl_cons, appendQueryStep, h, ih, definedQueryEntries,
            List.filterMap_cons]
      | some v =>
          simp [List.foldl_cons, appendQueryStep, h, ih, definedQueryEntries,
            List.filterMap_cons, List.append_assoc]

/-- The message extractor of the source agrees with the amended
specification rule on every body and status. -/
theorem extractErrorMessage_eq_spec (body : JsValue) (status : Nat) :
    HttpClient.extractErrorMessage body status = specErrorMessage body status := by
  cases body with
  | obj fields =>
      unfold HttpClient.extractErrorMessage specErrorMessage
      cases hm : JsValue.getField (JsValue.obj fields) "message" <;>
        cases he : JsValue.getField (JsValue.obj fields) "error" <;>
          simp [JsValue.typeofIsObject, JsValue.isNull, hm, he]
  | str s =>
      unfold HttpClient.extractErrorMessage specErrorMessage
      by_cases h : s = ""
      · subst h
        simp [JsValue.typeofIsObject, JsValue.isNull, JsValue.getField]
      · have hpos : 0 < s.length := (string_length_pos_iff s).mpr h
        simp [JsValue.typeofIsObject, JsValue.isNull, JsValue.getField, h, hpos]
  | undef => rfl
  | null => rfl
  | nan => rfl
  | bool b => rfl
  | num n => rfl
  | arr elems => rfl

/-- Claim C1: when a request fails with an abort of the internal
cancellation controller, the call raises the abort error exactly
when an external cancellation handle was supplied and is observed as
triggered at the moment the abort is handled, and otherwise raises
the timeout error carrying the effective timeout, which is the
per-call override when present and the client default otherwise.
The external handle observation alone decides the classification,
with no reference to the timer. -/
theorem c1_abort_classification (c : HttpClient) (options : InternalRequestOptions)
    (env : FetchEnv) (habort : env.outcome = FetchResult.abortError) :
    (options.signal = true → env.signalAborted = true →
      c.request options env = Except.error RequestError.abortError) ∧
    ((options.signal = false ∨ env.signalAborted = false) →
      c.request options env =
        Except.error (RequestError.timeoutError (effectiveTimeout c options))) ∧
    (∀ t, options.timeout = some t → effectiveTimeout c options = t) ∧
    (options.timeout = none → effectiveTimeout c options = c.defaultTimeout) := by
  refine ⟨?_, ?_, ?_, ?_⟩
  · intro hs ha
    simp [HttpClient.request, habort, hs, ha]
  · intro h
    rcases h with h | h <;> simp [HttpClient.request, habort, h]
  · intro t ht
    simp [effectiveTimeout, ht]
  · intro ht
    simp [effectiveTimeout, ht]

/-- Witness for claim C1 at concrete inputs: with a supplied and
triggered external handle the abort error is raised; with no handle
and a per-call timeout of 50 the timeout error carries 50. -/
theorem c1_abort_classification_witness :
    HttpClient.request clientH { method := HttpMethod.GET, path := "/x", signal := true }
        { outcome := FetchResult.abortError, signalAborted := true } =
      Except.error RequestError.abortError ∧
    HttpClient.request clientH { method := HttpMethod.GET, path := "/x", timeout := some 50 }
        { outcome := FetchResult.abortError, signalAborted := false } =
      Except.error (RequestError.timeoutError 50) := by
  constructor
  · exact (c1_abort_classification clientH
      { method := HttpMethod.GET, path := "/x", signal := true }
      { outcome := FetchResult.abortError, signalAborted := true } rfl).1 rfl rfl
  · exact (c1_abort_classification clientH
      { method := HttpMethod.GET, path := "/x", timeout := some 50 }
      { outcome := FetchResult.abortError, signalAborted := false } rfl).2.1 (Or.inl rfl)

/-- Claim C2 counterexample: on an API error with status 404 the
isNotFound predicate is true, but isClientError is true as well,
refuting the statement that every classification predicate other
than isNotFound returns false for status 404. -/
theorem c2_counterexample :
    N8nApiError.isNotFound
        { message := "m", status := 404, method := "GET", path := "/w", body := JsValue.null } =
      true ∧
    N8nApiError.isClientError
        { message := "m", status := 404, method := "GET", path := "/w", body := JsValue.null } =
      true := by
  exact ⟨rfl, rfl⟩

/-- Claim C2 as amended: each classification predicate of the API
error is true exactly when the carried status satisfies its own
condition: client error on 400 to 499, server error on at least 500,
not-found on 404, unauthorized on 401, forbidden on 403, validation
on 400, conflict on 409. The predicates are not mutually exclusive:
a 404 error is also a client error. -/
theorem c2_status_predicates (e : N8nApiError) :
    (e.isClientError = true ↔ 400 ≤ e.status ∧ e.status < 500) ∧
    (e.isServerError = true ↔ 500 ≤ e.status) ∧
    (e.isNotFound = true ↔ e.status = 404) ∧
    (e.isUnauthorized = true ↔ e.status = 401) ∧
    (e.isForbidden = true ↔ e.status = 403) ∧
    (e.isValidationError = true ↔ e.status = 400) ∧
    (e.isConflict = true ↔ e.status = 409) := by
  refine ⟨?_, ?_, ?_, ?_, ?_, ?_, ?_⟩ <;>
    simp [N8nApiError.isClientError, N8nApiError.isServerError, N8nApiError.isNotFound,
      N8nApiError.isUnauthorized, N8nApiError.isForbidden, N8nApiError.isValidationError,
      N8nApiError.isConflict]

/-- Claim C5: construction succeeds exactly when both the base URL
and the API key are nonempty, and on an empty base URL or an empty
API key it fails with the configuration error immediately. The
constructor is a pure function of the configuration, so no network
activity is involved, and validation is performed nowhere else. -/
theorem c5_config_validation (config : N8nClientConfig) :
    ((∃ c, mkHttpClient config = Except.ok c) ↔
      config.baseUrl ≠ "" ∧ config.apiKey ≠ "") ∧
    (config.baseUrl = "" →
      mkHttpClient config = Except.error ⟨"baseUrl is required"⟩) ∧
    (config.baseUrl ≠ "" → config.apiKey = "" →
      mkHttpClient config = Except.error ⟨"apiKey is required"⟩) := by
  unfold mkHttpClient
  by_cases hb : config.baseUrl = "" <;> by_cases ha : config.apiKey = "" <;>
    simp [hb, ha]

/-- Witness for claim C5 at concrete inputs: the empty base URL and
the empty API key each fail construction with the respective
configuration error. -/
theorem c5_config_validation_witness :
    mkHttpClient { baseUrl := "", apiKey := "k" } =
      Except.error ⟨"baseUrl is required"⟩ ∧
    mkHttpClient { baseUrl := "https://h", apiKey := "" } =
      Except.error ⟨"apiKey is required"⟩ := by
  constructor
  · exact (c5_config_validation { baseUrl := "", apiKey := "k" }).2.1 rfl
  · exact (c5_config_validation { baseUrl := "https://h", apiKey := "" }).2.2 (by decide) rfl

/-- Claim C8: a response with status 204 resolves to the empty
result for every content type, every JSON body view and every text
body view: neither body view is consumed. -/
theorem c8_status_204 (c : HttpClient) (options : InternalRequestOptions)
    (ct : Option String) (jb : JsValue) (tb : String) (sa : Bool) :
    c.request options
        { outcome := FetchResult.success
            { status := 204, contentType := ct, jsonBody := jb, textBody := tb }
          signalAborted := sa } = Except.ok none := rfl

/-- Claim C9: the body handed to fetch is absent whenever the body
argument is absent or falsy (false, zero, the empty string, null,
NaN), and is the JSON serialization exactly when the body argument
is truthy. -/
theorem c9_falsy_body (c : HttpClient) (options : InternalRequestOptions) (b : JsValue) :
    (c.fetchCall options).body = sentBody options.body ∧
    (b.truthy = false → sentBody (some b) = none) ∧
    (b.truthy = true → sentBody (some b) = some (JsValue.stringify b)) ∧
    sentBody (some (JsValue.bool false)) = none ∧
    sentBody (some (JsValue.num 0)) = none ∧
    sentBody (some (JsValue.str "")) = none ∧
    sentBody (some JsValue.null) = none ∧
    sentBody (some JsValue.nan) = none ∧
    sentBody none = none := by
  refine ⟨rfl, ?_, ?_, rfl, rfl, rfl, rfl, rfl, rfl⟩
  · intro h
    simp [sentBody, h]
  · intro h
    simp [sentBody, h]

/-- Witness for claim C9 at concrete inputs: the empty string body
is not serialized, a nonempty string body is serialized. -/
theorem c9_falsy_body_witness :
    sentBody (some (JsValue.str "")) = none ∧
    sentBody (some (JsValue.str "x")) = some (JsValue.stringify (JsValue.str "x")) := by
  constructor
  · exact (c9_falsy_body clientH { method := HttpMethod.GET, path := "/x" }
      (JsValue.str "")).2.1 rfl
  · exact (c9_falsy_body clientH { method := HttpMethod.GET, path := "/x" }
      (JsValue.str "x")).2.2.1 rfl

/-- Claim C3 counterexample: a non-2xx response whose body was
parsed as plain text and is the empty string raises the API error
with the fallback message naming the status, not the raw (empty)
text body the claim prescribes: the message has positive length
while the raw body has length zero. -/
theorem c3_counterexample :
    HttpClient.request clientH { method := HttpMethod.GET, path := "/x" }
        { outcome := FetchResult.success
            { status := 500, contentType := some "text/plain", textBody := "" } } =
      Except.error (RequestError.apiError
        { message := "HTTP 500 error", status := 500, method := "GET", path := "/x",
          body := JsValue.str "" }) ∧
    0 < ("HTTP 500 error" : String).length ∧
    ("" : String).length = 0 := by
  refine ⟨by rfl, by decide, rfl⟩

/-- Claim C3 as amended: every non-2xx response raises the API error
carrying the status, the method, the path and the parsed body, whose
message follows the rule: the message field of the body when a
string, else the error field when a string, else the raw text body
when the body was parsed as plain text and is nonempty, else the
fallback text naming the status; the first conjunct records that the
extractor of the source implements exactly that rule. -/
theorem c3_api_error_raising (c : HttpClient) (options : InternalRequestOptions)
    (r : HttpResponse) (sa : Bool) (hok : responseOk r.status = false) :
    (∀ body status, HttpClient.extractErrorMessage body status = specErrorMessage body status) ∧
    c.request options { outcome := FetchResult.success r, signalAborted := sa } =
      Except.error (RequestError.apiError
        { message := specErrorMessage
            (if ctIncludesJson r.contentType then r.jsonBody else JsValue.str r.textBody)
            r.status
          status := r.status
          method := options.method.toStr
          path := options.path
          body := if ctIncludesJson r.contentType then r.jsonBody else JsValue.str r.textBody }) := by
  have h204 : (r.status == 204) = false := by
    rcases eq_or_ne r.status 204 with h | h
    · rw [h] at hok
      exact absurd hok (by decide)
    · simp [h]
  refine ⟨fun body status => extractErrorMessage_eq_spec body status, ?_⟩
  simp [HttpClient.request, h204, hok, extractErrorMessage_eq_spec]

/-- Witness for claim C3 at a concrete input: a 404 JSON response
with a message field raises the API error with exactly that
message. -/
theorem c3_api_error_raising_witness :
    HttpClient.request clientH { method := HttpMethod.GET, path := "/z" }
        { outcome := FetchResult.success
            { status := 404, contentType := some "application/json",
              jsonBody := JsValue.obj [("message", JsValue.str "X")] } } =
      Except.error (RequestError.apiError
        { message := "X", status := 404, method := "GET", path := "/z",
          body := JsValue.obj [("message", JsValue.str "X")] }) := by
  exact (c3_api_error_raising clientH { method := HttpMethod.GET, path := "/z" }
    { status := 404, contentType := some "application/json",
      jsonBody := JsValue.obj [("message", JsValue.str "X")] } false (by decide)).2

/-- Claim C4: the query loop appends, in insertion order, one entry
per key whose value is defined, converting the value with the
String conversion (booleans to the literal texts true and false,
integers to decimal notation), the serialized query joins those
entries percent-encoded, a key all of whose occurrences are
undefined contributes no entry, and on the example mapping the
built URL carries foo=a, baz=5 and flag=true and contains neither
the text bar nor the text undefined. -/
theorem c4_query_encoding (q : QueryParams) :
    appendQueryParams q = definedQueryEntries q ∧
    searchParamsToString (appendQueryParams q) =
      String.intercalate "&"
        ((definedQueryEntries q).map (fun p => urlencode p.1 ++ "=" ++ urlencode p.2)) ∧
    (∀ b, QueryValue.jsString (QueryValue.bool b) = if b then "true" else "false") ∧
    (∀ n, QueryValue.jsString (QueryValue.num n) = toString n) ∧
    (∀ k, q.all (fun kv => !(kv.1 == k) || kv.2.isNone) = true →
      ∀ p ∈ appendQueryParams q, p.1 ≠ k) ∧
    clientH.buildUrl "/executions" (some exampleQuery) =
      "https://h/api/v1/executions?foo=a&baz=5&flag=true" ∧
    strIncludes (clientH.buildUrl "/executions" (some exampleQuery)) "bar" = false ∧
    strIncludes (clientH.buildUrl "/executions" (some exampleQuery)) "undefined" = false := by
  have happ : appendQueryParams q = definedQueryEntries q := by
    unfold appendQueryParams
    simpa using foldl_appendQueryStep q []
  refine ⟨happ, ?_, fun b => rfl, fun n => rfl, ?_, by decide, by decide, by decide⟩
  · rw [happ]
    rfl
  · intro k hall p hp
    rw [happ] at hp
    unfold definedQueryEntries at hp
    rcases List.mem_filterMap.mp hp with ⟨kv, hkvmem, hf⟩
    have hall2 := (List.all_eq_true.mp hall) kv hkvmem
    cases hv : kv.2 with
    | none =>
        rw [hv] at hf
        simp at hf
    | some v =>
        rw [hv] at hf
        simp only [Option.map_some'] at hf
        injection hf with hf2
        rw [hv] at hall2
        simp at hall2
        intro hpk
        rw [← hf2] at hpk
        exact hall2 hpk

/-- Witness for claim C4 at a concrete input: no entry of the
search parameter list built from the example mapping has the key
bar. -/
theorem c4_query_encoding_witness :
    (appendQueryParams exampleQuery).all (fun p => !(p.1 == "bar")) = true := by
  apply List.all_eq_true.mpr
  intro p hp
  have h := (c4_query_encoding exampleQuery).2.2.2.2.1 "bar" (by decide) p hp
  simpa using h

/-- Claim C6 counterexample: the pagination envelope returned by the
executions list reshaping has no field named items; its fields are
data and nextCursor. -/
theorem c6_counterexample :
    JsValue.hasKey (ExecutionsResource.listReshape exampleListResponse) "items" = false ∧
    JsValue.hasKey (ExecutionsResource.listReshape exampleListResponse) "data" = true ∧
    JsValue.hasKey (ExecutionsResource.listReshape exampleListResponse) "nextCursor" = true := by
  exact ⟨rfl, rfl, rfl⟩

/-- Claim C6 as amended: the paginating list operation reshapes the
decoded response into an envelope whose fields are exactly data and
nextCursor, in that order, copied from the fields of the same name
of the response; no field named items exists. -/
theorem c6_pagination_envelope (response : JsValue) :
    (ExecutionsResource.listReshape response).objKeys = ["data", "nextCursor"] ∧
    JsValue.hasKey (ExecutionsResource.listReshape response) "items" = false ∧
    (ExecutionsResource.listReshape response).getField "data" = response.getField "data" ∧
    (ExecutionsResource.listReshape response).getField "nextCursor" =
      response.getField "nextCursor" := by
  exact ⟨rfl, rfl, rfl, rfl⟩

/-- Claim C7: for every nonempty base URL, appending any run of
trailing slashes to it yields a client with identical stored state,
hence an identical request URL for every path and query; the
concrete pair https://h/ and https://h is an instance. -/
theorem c7_trailing_slash_invariance (b key path : String) (k : Nat) (q : Option QueryParams)
    (hb : b ≠ "") :
    mkHttpClient { baseUrl := b ++ String.mk (List.replicate k '/'), apiKey := key } =
      mkHttpClient { baseUrl := b, apiKey := key } ∧
    (mkHttpClient { baseUrl := b ++ String.mk (List.replicate k '/'), apiKey := key }).map
        (fun c => c.buildUrl path q) =
      (mkHttpClient { baseUrl := b, apiKey := key }).map (fun c => c.buildUrl path q) := by
  have hb2 : b ++ String.mk (List.replicate k '/') ≠ "" := string_append_ne_empty b _ hb
  have heq : mkHttpClient { baseUrl := b ++ String.mk (List.replicate k '/'), apiKey := key } =
      mkHttpClient { baseUrl := b, apiKey := key } := by
    unfold mkHttpClient
    by_cases hk : key = ""
    · simp [hk, hb, hb2]
    · simp [hk, hb, hb2, stripTrailingSlashes_append_slashes]
  exact ⟨heq, by rw [heq]⟩

/-- Witness for claim C7 at a concrete input: the base URLs
https://h/ and https://h construct clients with identical stored
state. -/
theorem c7_trailing_slash_invariance_witness :
    mkHttpClient { baseUrl := "https://h/", apiKey := "k" } =
      mkHttpClient { baseUrl := "https://h", apiKey := "k" } := by
  have hs : ("https://h" : String) ++ String.mk (List.replicate 1 '/') = "https://h/" := by
    decide
  have h := (c7_trailing_slash_invariance "https://h" "k" "/w" 1 none (by decide)).1
  rw [hs] at h
  exact h

/-- Claim C10: a non-2xx response parsed as text with the empty
string body raises the API error with the fallback message naming
the status, and that message has positive length, hence is not the
empty string. -/
theorem c10_empty_text_fallback (c : HttpClient) (options : InternalRequestOptions)
    (status : Nat) (ct : Option String) (jb : JsValue) (sa : Bool)
    (hct : ctIncludesJson ct = false) (hok : responseOk status = false) :
    c.request options
        { outcome := FetchResult.success
            { status := status, contentType := ct, jsonBody := jb, textBody := "" }
          signalAborted := sa } =
      Except.error (RequestError.apiError
        { message := "HTTP " ++ toString status ++ " error"
          status := status
          method := options.method.toStr
          path := options.path
          body := JsValue.str "" }) ∧
    0 < ("HTTP " ++ toString status ++ " error").length := by
  have h204 : (status == 204) = false := by
    rcases eq_or_ne status 204 with h | h
    · rw [h] at hok
      exact absurd hok (by decide)
    · simp [h]
  constructor
  · simp [HttpClient.request, h204, hok, hct, extractErrorMessage_eq_spec, specErrorMessage,
      JsValue.getField]
  · rw [String.length_append, String.length_append]
    have h5 : ("HTTP " : String).length = 5 := rfl
    omega

/-- Witness for claim C10 at a concrete input: a 502 response with
an HTML content type and empty body raises the API error with
message HTTP 502 error. -/
theorem c10_empty_text_fallback_witness :
    HttpClient.request clientH { method := HttpMethod.GET, path := "/y" }
        { outcome := FetchResult.success
            { status := 502, contentType := some "text/html", textBody := "" } } =
      Except.error (RequestError.apiError
        { message := "HTTP 502 error", status := 502, method := "GET", path := "/y",
          body := JsValue.str "" }) := by
  exact (c10_empty_text_fallback clientH { method := HttpMethod.GET, path := "/y" }
    502 (some "text/html") JsValue.undef false (by decide) (by decide)).1

end N8nSdk
